import Mathlib

/-!
Verification of the command execution and output-capture subsystem of the
docker-builder repository (file `src/shared/run_command.py`).

The Python functions `run_command`, `run_command_with_pty`, and
`run_piped_commands` are embedded shallowly:

* pure control flow (which branch is taken, which result object or exception
  is produced) is translated directly into Lean functions;
* interaction with the operating system (spawning a child, the bytes it
  produces, exceptions raised by `subprocess`) is abstracted into explicit
  oracle arguments describing what the OS layer did, so each execution path
  of the Python code corresponds to one value of the oracle;
* the PTY read loop (lines 110-152 of `run_command.py`) is modelled as a
  recursive function over the finite sequence of poll outcomes (`select`
  returning data / no data, the process exiting, a read error), with the
  loop counters `timeout_count` and `idle_count` carried as explicit state.
-/

/-- A command, either free text or a pre-tokenized argument vector
(Python: `cmd` may be a `str` or a `list`). -/
inductive Cmd where
  | str (s : String)
  | argv (args : List String)
deriving DecidableEq

/-- Python `cmd if isinstance(cmd, str) else ' '.join(cmd)` (lines 107, 223). -/
def cmdToStr : Cmd → String
  | Cmd.str s => s
  | Cmd.argv l => String.intercalate " " l

/-- Python's substring test `needle in haystack`. -/
def strContains (hay needle : String) : Bool :=
  hay.toList.tails.any (fun t => needle.toList.isPrefixOf t)

/-- Exceptions of the Python runtime that are not the module's own
`CommandError`: used to model what `Popen`/`communicate` may raise. -/
inductive PyExc where
  | fileNotFound (msg : String)
  | subprocessExc (msg : String)
  | otherExc (msg : String)
deriving DecidableEq

/-- Exception classes, for stating which class a raised error belongs to.
The module defines a single exception class `CommandError` (line 32). -/
inductive ExcClass where
  | commandErrorCls
  | fileNotFoundCls
  | subprocessExcCls
  | otherCls
deriving DecidableEq

/-- An error escaping `run_command` to the caller: either the module's own
`CommandError` (with its formatted message) or an unwrapped Python
exception that no `except` clause catches. -/
inductive RunErr where
  | commandError (msg : String)
  | uncaught (e : PyExc)
deriving DecidableEq

/-- The exception class of an escaping error. -/
def raisedClass : RunErr → ExcClass
  | RunErr.commandError _ => ExcClass.commandErrorCls
  | RunErr.uncaught (PyExc.fileNotFound _) => ExcClass.fileNotFoundCls
  | RunErr.uncaught (PyExc.subprocessExc _) => ExcClass.subprocessExcCls
  | RunErr.uncaught (PyExc.otherExc _) => ExcClass.otherCls

/-- `subprocess.CompletedProcess` as built by the module: args, return
code, captured stdout and stderr. -/
structure CompletedProcess where
  args : Cmd
  returncode : Int
  stdout : String
  stderr : String
deriving DecidableEq

/-- Oracle for the direct-pipe execution path (lines 255-271): what
`Popen` + `communicate` did. `completed` is a normal exit with the given
return code and captured streams; `timedOut` is `subprocess.TimeoutExpired`
(with `str(e)` as message); `raised` is any other exception. -/
inductive DirectOutcome where
  | completed (rc : Int) (out err : String)
  | timedOut (emsg : String)
  | raised (e : PyExc)
deriving DecidableEq

/-- The dict returned by `run_command_with_pty` (lines 181-185): stderr is
always empty because the PTY merges the streams. -/
structure PtyResult where
  returncode : Int
  stdout : String
deriving DecidableEq

/-- Oracle for a call to `run_command_with_pty` from `run_command`:
either the call returned a result dict, or it raised (an exception escaped
it, e.g. `pty.openpty`/`Popen` failing before its `try` block), in which
case `run_command` catches the exception at line 245 and falls back to the
standard path. -/
inductive PtyOutcome where
  | setupFailed (msg : String)
  | done (r : PtyResult)
deriving DecidableEq

/-- Python `str(timeout)` for the f-string in the timeout stderr text. -/
def optTimeoutStr : Option Nat → String
  | none => "None"
  | some t => toString t

/-- The standard (direct-pipe) body of `run_command`: the `try` block at
lines 249-321 together with its `except` clauses. Note that only
`subprocess.TimeoutExpired` and `subprocess.SubprocessError` are caught;
any other exception (e.g. `FileNotFoundError` from `Popen` when
`shell=False`) escapes unwrapped. -/
def runStandard (cmd : Cmd) (check : Bool) (timeout : Option Nat)
    (direct : DirectOutcome) : Except RunErr CompletedProcess :=
  match direct with
  | DirectOutcome.completed rc out err =>
    if check = true ∧ rc ≠ 0 then
      Except.error (RunErr.commandError ("命令执行失败，返回码: " ++ toString rc))
    else
      Except.ok ⟨cmd, rc, out, err⟩
  | DirectOutcome.timedOut emsg =>
    if check = true then
      Except.error (RunErr.commandError ("命令执行超时: " ++ emsg))
    else
      Except.ok ⟨cmd, 124, "", "命令执行超时 (" ++ optTimeoutStr timeout ++ "秒)"⟩
  | DirectOutcome.raised e =>
    match e with
    | PyExc.subprocessExc m =>
      if check = true then
        Except.error (RunErr.commandError ("命令执行失败: " ++ m))
      else
        Except.ok ⟨cmd, 1, "", "命令执行异常: " ++ m⟩
    | PyExc.fileNotFound m => Except.error (RunErr.uncaught (PyExc.fileNotFound m))
    | PyExc.otherExc m => Except.error (RunErr.uncaught (PyExc.otherExc m))

/-- The keyword list at line 224. -/
def colorKeywords : List String := ["systemctl", "ls --color", "docker", "journalctl"]

/-- `run_command` (lines 188-321). When `preserve_color` is set the PTY
branch runs: if `run_command_with_pty` returns, its dict is wrapped into a
`CompletedProcess` and returned immediately (line 244) without consulting
`check`; if it raised, the code falls through to the standard path. -/
def run_command (cmd : Cmd) (check : Bool) (timeout : Option Nat)
    (preserve_color : Bool) (pty : PtyOutcome) (direct : DirectOutcome) :
    Except RunErr CompletedProcess :=
  if preserve_color then
    let cmd_str := cmdToStr cmd
    let is_color_cmd := colorKeywords.any (fun k => strContains cmd_str k)
    if is_color_cmd || strContains cmd_str "status" || preserve_color then
      match pty with
      | PtyOutcome.done r => Except.ok ⟨cmd, r.returncode, r.stdout, ""⟩
      | PtyOutcome.setupFailed _ => runStandard cmd check timeout direct
    else
      runStandard cmd check timeout direct
  else
    runStandard cmd check timeout direct

/-! ### The PTY read loop (`run_command_with_pty`, lines 94-155)

The loop polls the PTY master with `select` every `read_timeout = 0.1`
seconds. Each iteration of the Python `while True` is driven here by one
`PollEvent`: either `select` reported readable data (and `os.read`
returned a chunk, possibly empty, or raised `OSError`), or `select` timed
out (in which case `process.poll()` tells whether the child has exited).

The Python thresholds are `timeout / read_timeout` and
`max_idle_time / read_timeout = 2 / 0.1`. Both divisions are floating
point, but for integer counters `c` the tests `c >= t/0.1` and
`c >= 2/0.1` are equivalent to `c ≥ 10*t` and `c ≥ 20`, because the
rounded quotient always lies in the half-open interval `(10*t - 1, 10*t]`;
the Nat thresholds below are therefore exact. -/

/-- One poll iteration outcome, as seen by the loop body. -/
inductive PollEvent where
  | data (chunk : List Nat)
  | readError
  | noData (exited : Bool)
deriving DecidableEq

/-- The mutable loop state: accumulated `output` bytes, `timeout_count`,
and `idle_count` (lines 95-99). -/
structure PtyLoopState where
  output : List Nat
  timeoutCount : Nat
  idleCount : Nat
deriving DecidableEq

/-- How the loop was left. `timedOutKilled` and `idleKilled` are the two
`os.killpg` + `break` paths (lines 113-114 and 143-148); `stillRunning`
means the supplied event sequence ended before the loop did. -/
inductive LoopExit where
  | timedOutKilled
  | readErr
  | procExited
  | idleKilled
  | idleDone
  | stillRunning
deriving DecidableEq

/-- The guard `timeout and timeout_count >= timeout / read_timeout`
(line 112); `timeout=None` and `timeout=0` are both falsy in Python. -/
def timeoutHit (timeout : Option Nat) (tc : Nat) : Bool :=
  match timeout with
  | none => false
  | some t => decide (0 < t) && decide (t * 10 ≤ tc)

/-- `max_idle_time / read_timeout = 2 / 0.1` polls (lines 97-98). -/
def maxIdlePolls : Nat := 20

/-- The `while True` loop of `run_command_with_pty`, one `PollEvent` per
iteration. Faithfully in source order: the timeout guard first; then the
`select` branch (readable data resets `idle_count`, an empty read bumps
it; a poll-timeout with the process gone breaks; otherwise `idle_count`
and `timeout_count` both advance); finally the `systemctl status` check
and the plain idle check, both against the same `max_idle_time`
threshold. -/
def ptyLoop (timeout : Option Nat) (isSys : Bool) :
    List PollEvent → PtyLoopState → PtyLoopState × LoopExit
  | [], st => (st, LoopExit.stillRunning)
  | PollEvent.readError :: _, st =>
    if timeoutHit timeout st.timeoutCount then (st, LoopExit.timedOutKilled)
    else (st, LoopExit.readErr)
  | PollEvent.noData true :: _, st =>
    if timeoutHit timeout st.timeoutCount then (st, LoopExit.timedOutKilled)
    else (st, LoopExit.procExited)
  | PollEvent.data chunk :: rest, st =>
    if timeoutHit timeout st.timeoutCount then (st, LoopExit.timedOutKilled)
    else
      let st' := if chunk.isEmpty then
          { st with idleCount := st.idleCount + 1 }
        else
          { st with output := st.output ++ chunk, idleCount := 0 }
      if isSys = true ∧ maxIdlePolls ≤ st'.idleCount then (st', LoopExit.idleKilled)
      else if maxIdlePolls ≤ st'.idleCount then (st', LoopExit.idleDone)
      else ptyLoop timeout isSys rest st'
  | PollEvent.noData false :: rest, st =>
    if timeoutHit timeout st.timeoutCount then (st, LoopExit.timedOutKilled)
    else
      let st' := { st with idleCount := st.idleCount + 1,
                           timeoutCount := st.timeoutCount + 1 }
      if isSys = true ∧ maxIdlePolls ≤ st'.idleCount then (st', LoopExit.idleKilled)
      else if maxIdlePolls ≤ st'.idleCount then (st', LoopExit.idleDone)
      else ptyLoop timeout isSys rest st'

/-- The special-case flag `'systemctl status' in cmd_str` (lines 107-108). -/
def isSystemctlStatusCmd (cmd : Cmd) : Bool :=
  strContains (cmdToStr cmd) "systemctl status"

/-! ### Decoding (`output.decode('utf-8')`, lines 172-178)

The code first tries a strict UTF-8 decode and falls back to
`errors='replace'`; the two agree whenever the bytes are valid UTF-8, so a
single decoder with replacement models both. Only the ASCII behaviour is
exercised by the claims; multi-byte sequences are decoded by their lead
byte ranges, with U+FFFD for an invalid lead or continuation. -/

/-- A UTF-8 continuation byte. -/
def contByte (b : Nat) : Bool := decide (0x80 ≤ b) && decide (b < 0xC0)

/-- Worker for the decoder, with fuel bounding the number of decoded
characters (each step consumes at least one byte, so `bs.length` fuel is
always enough). -/
def utf8DecodeAux : Nat → List Nat → List Char
  | 0, _ => []
  | _ + 1, [] => []
  | fuel + 1, b :: rest =>
    if b < 0x80 then Char.ofNat b :: utf8DecodeAux fuel rest
    else if 0xC2 ≤ b ∧ b ≤ 0xDF then
      match rest with
      | c :: rest2 =>
        if contByte c then
          Char.ofNat ((b - 0xC0) * 64 + (c - 0x80)) :: utf8DecodeAux fuel rest2
        else Char.ofNat 0xFFFD :: utf8DecodeAux fuel rest
      | [] => [Char.ofNat 0xFFFD]
    else if 0xE0 ≤ b ∧ b ≤ 0xEF then
      match rest with
      | c :: d :: rest3 =>
        if contByte c && contByte d then
          Char.ofNat ((b - 0xE0) * 4096 + (c - 0x80) * 64 + (d - 0x80)) ::
            utf8DecodeAux fuel rest3
        else Char.ofNat 0xFFFD :: utf8DecodeAux fuel rest
      | _ => Char.ofNat 0xFFFD :: utf8DecodeAux fuel rest
    else if 0xF0 ≤ b ∧ b ≤ 0xF4 then
      match rest with
      | c :: d :: e :: rest4 =>
        if contByte c && contByte d && contByte e then
          Char.ofNat ((b - 0xF0) * 262144 + (c - 0x80) * 4096 +
              (d - 0x80) * 64 + (e - 0x80)) :: utf8DecodeAux fuel rest4
        else Char.ofNat 0xFFFD :: utf8DecodeAux fuel rest
      | _ => Char.ofNat 0xFFFD :: utf8DecodeAux fuel rest
    else Char.ofNat 0xFFFD :: utf8DecodeAux fuel rest

/-- `bytes.decode('utf-8', errors='replace')`, byte list to char list. -/
def utf8DecodeReplace (bs : List Nat) : List Char :=
  utf8DecodeAux bs.length bs

/-- The stdout text produced by the PTY path for a given poll schedule:
the loop's accumulated bytes, decoded (lines 172-185). -/
def ptyCapture (timeout : Option Nat) (isSys : Bool)
    (sched : List PollEvent) : List Char :=
  utf8DecodeReplace (ptyLoop timeout isSys sched ⟨[], 0, 0⟩).1.output

/-- The stdout text produced by the direct-pipe path for the bytes the
child emitted: `communicate` with `text=True` decodes the captured pipe
contents (lines 255-266). -/
def directCapture (emitted : List Nat) : List Char :=
  utf8DecodeReplace emitted

/-! ### Command interpretation (`shlex.split` and the `shell=` flag)

`run_command` passes `cmd` to `Popen(cmd, shell=shell)` with `shell=True`
by default (line 256), so free text goes through the platform shell.
`run_command_with_pty` instead tokenizes a string with `shlex.split`
(lines 66-70) and spawns with `shell=False` (line 88). -/

/-- Tokenizer state of `shlex.split` in POSIX mode. -/
inductive ShMode where
  | normal
  | single
  | double
deriving DecidableEq

/-- Worker for `shlex.split`: characters, quoting mode, current token
(none = between tokens), accumulated tokens. -/
def shlexGo : List Char → ShMode → Option (List Char) → List (List Char) →
    List (List Char)
  | [], _, none, acc => acc
  | [], _, some t, acc => acc ++ [t]
  | ch :: rest, ShMode.normal, tok, acc =>
    if ch = ' ' ∨ ch = '\t' ∨ ch = '\n' then
      match tok with
      | none => shlexGo rest ShMode.normal none acc
      | some t => shlexGo rest ShMode.normal none (acc ++ [t])
    else if ch = '\'' then shlexGo rest ShMode.single (some (tok.getD [])) acc
    else if ch = '"' then shlexGo rest ShMode.double (some (tok.getD [])) acc
    else if ch = '\\' then
      match rest with
      | [] => shlexGo [] ShMode.normal tok acc
      | d :: rest2 => shlexGo rest2 ShMode.normal (some (tok.getD [] ++ [d])) acc
    else shlexGo rest ShMode.normal (some (tok.getD [] ++ [ch])) acc
  | ch :: rest, ShMode.single, tok, acc =>
    if ch = '\'' then shlexGo rest ShMode.normal tok acc
    else shlexGo rest ShMode.single (some (tok.getD [] ++ [ch])) acc
  | ch :: rest, ShMode.double, tok, acc =>
    if ch = '"' then shlexGo rest ShMode.normal tok acc
    else if ch = '\\' then
      match rest with
      | [] => shlexGo [] ShMode.double tok acc
      | d :: rest2 =>
        if d = '"' ∨ d = '\\' then
          shlexGo rest2 ShMode.double (some (tok.getD [] ++ [d])) acc
        else shlexGo rest2 ShMode.double (some (tok.getD [] ++ [ch, d])) acc
    else shlexGo rest ShMode.double (some (tok.getD [] ++ [ch])) acc

/-- `shlex.split` (line 68): POSIX word splitting with quoting; shell
operators such as `|` and `>` are ordinary characters to it. -/
def shlexSplit (s : String) : List String :=
  (shlexGo s.toList ShMode.normal none []).map (fun l => String.mk l)

/-- How a command line reaches the OS: through the platform shell, or by
direct `exec` of an argument vector. -/
inductive Invocation where
  | shellText (s : String)
  | shellArgv (l : List String)
  | execArgv (l : List String)
deriving DecidableEq

/-- `Popen(cmd, shell=shell, ...)` in the direct-pipe path (line 256):
`shell=True` hands a string to the shell; `shell=False` execs directly
(a plain string is then treated as the executable name itself). -/
def directInvocation (cmd : Cmd) (shell : Bool) : Invocation :=
  match cmd, shell with
  | Cmd.str s, true => Invocation.shellText s
  | Cmd.argv l, true => Invocation.shellArgv l
  | Cmd.str s, false => Invocation.execArgv [s]
  | Cmd.argv l, false => Invocation.execArgv l

/-- `Popen(cmd_list, ..., shell=False)` in the PTY path (lines 66-70, 80-88):
strings are tokenized by `shlex.split`, never shell-interpreted. -/
def ptyInvocation (cmd : Cmd) : Invocation :=
  match cmd with
  | Cmd.str s => Invocation.execArgv (shlexSplit s)
  | Cmd.argv l => Invocation.execArgv l

/-! ### Timeout kill scope

What gets terminated when a timeout fires, read off the two handlers. -/

/-- Scope of a forced termination. -/
inductive KillScope where
  | singleProcess
  | processGroup
deriving DecidableEq

/-- On `subprocess.TimeoutExpired` the direct-pipe path calls
`process.kill()` (line 269): only the immediate child. -/
def directTimeoutKillScope : KillScope := KillScope.singleProcess

/-- On its internal timeout the PTY loop calls
`os.killpg(os.getpgid(process.pid), signal.SIGTERM)` (line 113):
the whole process group. -/
def ptyTimeoutKillScope : KillScope := KillScope.processGroup

/-! ### Working-directory handling of `run_command_with_pty` (C8)

`os.chdir(cwd)` happens at lines 51-53, before the `try` block that
starts at line 101; the restoring `os.chdir(old_cwd)` sits in that
block's `finally` (lines 168-170). The region between the two —
`pty.openpty()`, `fcntl.ioctl`, `subprocess.Popen` (lines 73-92) — is
covered by neither, so an exception there escapes with the directory
still changed. An exception inside the `try` is caught at line 157
(return code becomes -1) and the `finally` restores the directory. -/

/-- Caller-visible process state: the current working directory. -/
structure ProcState where
  cwd : String
deriving DecidableEq

/-- Where, if anywhere, an exception occurs during
`run_command_with_pty`. -/
inductive PtyExcSite where
  | noExc (rc : Int)
  | excInSetup (e : PyExc)
  | excInLoop
deriving DecidableEq

/-- How the call ends: a returned result dict or a propagated exception. -/
inductive PtyCallOutcome where
  | returned (rc : Int)
  | raised (e : PyExc)
deriving DecidableEq

/-- The working-directory effect of `run_command_with_pty`: final process
state and call outcome, per exception site. -/
def run_command_with_pty_state (cwdArg : Option String) (site : PtyExcSite)
    (st : ProcState) : ProcState × PtyCallOutcome :=
  match cwdArg with
  | none =>
    match site with
    | PtyExcSite.noExc rc => (st, PtyCallOutcome.returned rc)
    | PtyExcSite.excInSetup e => (st, PtyCallOutcome.raised e)
    | PtyExcSite.excInLoop => (st, PtyCallOutcome.returned (-1))
  | some d =>
    match site with
    | PtyExcSite.noExc rc => (⟨st.cwd⟩, PtyCallOutcome.returned rc)
    | PtyExcSite.excInLoop => (⟨st.cwd⟩, PtyCallOutcome.returned (-1))
    | PtyExcSite.excInSetup e => (⟨d⟩, PtyCallOutcome.raised e)

/-! ### `run_piped_commands` (lines 411-515) -/

/-- Spawn/close actions the pipeline performs, in program order:
`spawn i src` is `Popen` of stage `i` with stdin wired from stage `src`'s
stdout pipe (`none` = inherited), `closeStdout i` is
`previous_process.stdout.close()` for stage `i`. -/
inductive PipeEvent where
  | spawn (stage : Nat) (stdinFrom : Option Nat)
  | closeStdout (stage : Nat)
deriving DecidableEq

/-- The middle loop (lines 445-454): stages `1 .. m` in order, each
spawned with stdin from its predecessor and followed immediately by
closing that predecessor's stdout in the parent. -/
def middleBlocks : Nat → List PipeEvent
  | 0 => []
  | m + 1 => middleBlocks m ++
      [PipeEvent.spawn (m + 1) (some m), PipeEvent.closeStdout m]

/-- The full action schedule for an `n`-stage pipeline (`n ≥ 2`):
first stage (line 437), the middle loop over `commands[1:-1]`
(stages `1 .. n-2`), then the final stage and the close of its
predecessor's stdout (lines 457-464). -/
def pipelineEvents (n : Nat) : List PipeEvent :=
  PipeEvent.spawn 0 none ::
    (middleBlocks (n - 2) ++
      [PipeEvent.spawn (n - 1) (some (n - 2)), PipeEvent.closeStdout (n - 2)])

/-- Oracle for the `n ≥ 2` pipeline body: either the final stage's
`communicate` completed with the given exit code and streams, or some
exception (spawn failure, `TimeoutExpired` re-raise, ...) reached the
`except Exception` handler at line 502 with message `str(e)`. -/
inductive PipedOutcome where
  | completed (rc : Int) (out err : String)
  | excDuring (msg : String)
deriving DecidableEq

/-- `run_piped_commands`: the empty list returns an empty success result
before any spawn (lines 428-429); a single command is delegated to
`run_command` (lines 432-433); otherwise the pipeline is wired up and the
result is built solely from the final stage (lines 435-515). The first
component is the spawn/close schedule executed (empty for the first two
arms, which spawn nothing through the pipeline code itself). -/
def run_piped_commands (commands : List Cmd) (check : Bool)
    (timeout : Option Nat) (preserve_color : Bool) (pty : PtyOutcome)
    (direct : DirectOutcome) (piped : PipedOutcome) :
    List PipeEvent × Except RunErr CompletedProcess :=
  match commands with
  | [] => ([], Except.ok ⟨Cmd.argv [], 0, "", ""⟩)
  | [c] => ([], run_command c check timeout preserve_color pty direct)
  | _ :: _ :: _ =>
    (pipelineEvents commands.length,
      match piped with
      | PipedOutcome.completed rc out err =>
        if check = true ∧ rc ≠ 0 then
          Except.error (RunErr.commandError
            ("管道命令执行失败，返回码: " ++ toString rc))
        else
          Except.ok ⟨commands.getLastD (Cmd.argv []), rc, out, err⟩
      | PipedOutcome.excDuring msg =>
        if check = true then
          Except.error (RunErr.commandError ("管道命令执行失败: " ++ msg))
        else
          Except.ok ⟨commands.getLastD (Cmd.argv []), 1, "",
            "管道命令执行异常: " ++ msg⟩)

/-! ## Helper lemmas -/

/-- On an all-ASCII byte list the decoder with enough fuel is the byte-wise
character map. -/
theorem utf8Aux_ascii : ∀ (bs : List Nat) (fuel : Nat), bs.length ≤ fuel →
    (∀ b ∈ bs, b < 128) → utf8DecodeAux fuel bs = bs.map Char.ofNat := by
  intro bs
  induction bs with
  | nil =>
    intro fuel _ _
    cases fuel <;> simp [utf8DecodeAux]
  | cons b rest ih =>
    intro fuel hlen hb
    cases fuel with
    | zero => simp at hlen
    | succ f =>
      have hb0 : b < 0x80 := hb b (by simp)
      simp only [utf8DecodeAux, if_pos hb0, List.map_cons]
      rw [ih f (by simpa using hlen) (fun x hx => hb x (by simp [hx]))]

/-- UTF-8 decoding with replacement is the identity embedding on ASCII. -/
theorem utf8_ascii (bs : List Nat) (h : ∀ b ∈ bs, b < 128) :
    utf8DecodeReplace bs = bs.map Char.ofNat :=
  utf8Aux_ascii bs bs.length le_rfl h

/-- Running the PTY loop over a schedule of nonempty data chunks followed
by process exit accumulates exactly the concatenation of the chunks. -/
theorem ptyLoop_data_run : ∀ (chunks : List (List Nat)) (isSys : Bool)
    (st : PtyLoopState), (∀ c ∈ chunks, c.isEmpty = false) →
    ptyLoop none isSys (chunks.map PollEvent.data ++ [PollEvent.noData true]) st
      = (⟨st.output ++ chunks.flatten, st.timeoutCount,
          if chunks.isEmpty then st.idleCount else 0⟩, LoopExit.procExited) := by
  intro chunks
  induction chunks with
  | nil =>
    intro isSys st _
    simp [ptyLoop, timeoutHit]
  | cons c cs ih =>
    intro isSys st hne
    have hc : c.isEmpty = false := hne c (by simp)
    have hcs : ∀ x ∈ cs, x.isEmpty = false := fun x hx => hne x (by simp [hx])
    simp only [List.map_cons, List.cons_append]
    rw [show ptyLoop none isSys
          (PollEvent.data c :: (cs.map PollEvent.data ++ [PollEvent.noData true])) st
        = ptyLoop none isSys (cs.map PollEvent.data ++ [PollEvent.noData true])
            ⟨st.output ++ c, st.timeoutCount, 0⟩ by
      simp [ptyLoop, timeoutHit, hc, maxIdlePolls]]
    rw [ih isSys ⟨st.output ++ c, st.timeoutCount, 0⟩ hcs]
    simp [List.append_assoc]

/-- Consuming `k` consecutive idle polls (no data, process alive) advances
both counters by `k` and leaves the output untouched, as long as the idle
threshold is not reached. -/
theorem ptyLoop_idle_steps (isSys : Bool) : ∀ (k : Nat)
    (rest : List PollEvent) (st : PtyLoopState), st.idleCount + k < 20 →
    ptyLoop none isSys (List.replicate k (PollEvent.noData false) ++ rest) st
      = ptyLoop none isSys rest
          ⟨st.output, st.timeoutCount + k, st.idleCount + k⟩ := by
  intro k
  induction k with
  | zero =>
    intro rest st _
    simp
  | succ k ih =>
    intro rest st hlt
    have hidle : ¬ (maxIdlePolls ≤ st.idleCount + 1) := by
      simp only [maxIdlePolls]
      omega
    rw [List.replicate_succ, List.cons_append]
    rw [show ptyLoop none isSys
          (PollEvent.noData false ::
            (List.replicate k (PollEvent.noData false) ++ rest)) st
        = ptyLoop none isSys (List.replicate k (PollEvent.noData false) ++ rest)
            ⟨st.output, st.timeoutCount + 1, st.idleCount + 1⟩ by
      simp [ptyLoop, timeoutHit, hidle]]
    rw [ih rest ⟨st.output, st.timeoutCount + 1, st.idleCount + 1⟩
      (by show st.idleCount + 1 + k < 20; omega)]
    have e1 : st.timeoutCount + 1 + k = st.timeoutCount + (k + 1) := by omega
    have e2 : st.idleCount + 1 + k = st.idleCount + (k + 1) := by omega
    rw [e1, e2]

/-- Every middle stage's spawn-then-close pair occurs contiguously in the
middle-loop schedule. -/
theorem middleBlocks_split : ∀ (m j : Nat), j < m → ∃ l1 l2,
    middleBlocks m = l1 ++ (PipeEvent.spawn (j + 1) (some j) ::
      PipeEvent.closeStdout j :: l2) := by
  intro m
  induction m with
  | zero => intro j h; omega
  | succ m ih =>
    intro j hj
    rcases Nat.lt_succ_iff_lt_or_eq.mp hj with h | h
    · obtain ⟨l1, l2, hl⟩ := ih j h
      exact ⟨l1, l2 ++ [PipeEvent.spawn (m + 1) (some m), PipeEvent.closeStdout m],
        by simp [middleBlocks, hl, List.append_assoc]⟩
    · subst h
      exact ⟨middleBlocks j, [], by simp [middleBlocks]⟩


/-! ## Claims -/

/-- Claim C1 (code bug, evaluation at the failing input): the docstring of
`run_command` promises that `check=True` raises `CommandError` when the
command fails, and in direct-pipe mode a non-zero exit with `check=True`
does raise it — but in pseudo-terminal mode (`preserve_color=True`) the
result is returned at line 244 without the check ever running, so the same
failing command yields a plain result instead of an exception. -/
theorem C1_code_bug_demo :
    ((1 : Int) ≠ 0)
    ∧ run_command (Cmd.str "false") true none true (PtyOutcome.done ⟨1, ""⟩)
        (DirectOutcome.completed 1 "" "")
      = Except.ok ⟨Cmd.str "false", 1, "", ""⟩
    ∧ run_command (Cmd.str "false") true none false (PtyOutcome.done ⟨1, ""⟩)
        (DirectOutcome.completed 1 "" "")
      = Except.error (RunErr.commandError "命令执行失败，返回码: 1") :=
  ⟨by decide, rfl, rfl⟩

/-- Claim C2 (counterexample): with `preserve_color=True`, `check=True`
and a 1-second timeout, a run in which the PTY loop's timeout fires (the
process group is SIGTERMed and `wait` reports -15) makes `run_command`
return an ordinary result — it raises nothing (in particular no distinct
`CommandTimeout` type exists) and the exit code is not the 124 sentinel. -/
theorem C2_counterexample :
    (ptyLoop (some 1) false (List.replicate 11 (PollEvent.noData false))
        ⟨[], 0, 0⟩).2 = LoopExit.timedOutKilled
    ∧ run_command (Cmd.str "sleep 100") true (some 1) true
        (PtyOutcome.done ⟨-15, ""⟩) (DirectOutcome.timedOut "x")
      = Except.ok ⟨Cmd.str "sleep 100", -15, "", ""⟩ :=
  ⟨by decide, rfl⟩

/-- Claim C2 (amended): in direct-pipe mode a timeout kills only the
immediate child and raises the module's single `CommandError` class — the
same class as ordinary failures, not a distinct `CommandTimeout` — when
`check` is set, else returns a result with sentinel exit code 124 and
explanatory stderr text; in PTY mode the whole process group is SIGTERMed
but the call returns the waited-for exit code as an ordinary result,
never raising and never producing 124. -/
theorem C2_amended :
    (∀ (cmd : Cmd) (t : Nat) (emsg : String),
        runStandard cmd true (some t) (DirectOutcome.timedOut emsg)
          = Except.error (RunErr.commandError ("命令执行超时: " ++ emsg)))
    ∧ (∀ (cmd : Cmd) (t : Nat) (emsg : String),
        runStandard cmd false (some t) (DirectOutcome.timedOut emsg)
          = Except.ok ⟨cmd, 124, "", "命令执行超时 (" ++ toString t ++ "秒)"⟩)
    ∧ (∀ (emsg : String) (rc : Int),
        raisedClass (RunErr.commandError ("命令执行超时: " ++ emsg))
          = raisedClass (RunErr.commandError ("命令执行失败，返回码: " ++ toString rc)))
    ∧ directTimeoutKillScope = KillScope.singleProcess
    ∧ ptyTimeoutKillScope = KillScope.processGroup
    ∧ (∀ (cmd : Cmd) (check : Bool) (t : Option Nat) (r : PtyResult)
        (d : DirectOutcome),
        run_command cmd check t true (PtyOutcome.done r) d
          = Except.ok ⟨cmd, r.returncode, r.stdout, ""⟩) := by
  refine ⟨fun _ _ _ => rfl, fun _ _ _ => rfl,
    fun _ _ => rfl, rfl, rfl, fun cmd check t r d => ?_⟩
  simp [run_command]

/-- Claim C3 (counterexample): an executable-not-found error
(`FileNotFoundError`) raised while spawning in direct-pipe mode matches
neither `except` clause (only `subprocess.TimeoutExpired` and
`subprocess.SubprocessError` are caught), so even with `check=True` it
propagates to the caller unwrapped, not as a `CommandError`. -/
theorem C3_counterexample :
    runStandard (Cmd.argv ["missing-binary"]) true none
        (DirectOutcome.raised (PyExc.fileNotFound "No such file or directory"))
      = Except.error (RunErr.uncaught (PyExc.fileNotFound "No such file or directory"))
    ∧ raisedClass (RunErr.uncaught (PyExc.fileNotFound "No such file or directory"))
        ≠ ExcClass.commandErrorCls :=
  ⟨rfl, by decide⟩

/-- Claim C3 (amended): exceptions of class `subprocess.SubprocessError`
raised while spawning or communicating are wrapped — re-raised as
`CommandError` when `check` is set, otherwise converted into a result
with exit code 1 and the exception text in stderr — but any other
exception, including executable-not-found, propagates unwrapped
regardless of `check`. -/
theorem C3_amended :
    (∀ (cmd : Cmd) (t : Option Nat) (m : String),
        runStandard cmd true t (DirectOutcome.raised (PyExc.subprocessExc m))
          = Except.error (RunErr.commandError ("命令执行失败: " ++ m)))
    ∧ (∀ (cmd : Cmd) (t : Option Nat) (m : String),
        runStandard cmd false t (DirectOutcome.raised (PyExc.subprocessExc m))
          = Except.ok ⟨cmd, 1, "", "命令执行异常: " ++ m⟩)
    ∧ (∀ (cmd : Cmd) (check : Bool) (t : Option Nat) (m : String),
        runStandard cmd check t (DirectOutcome.raised (PyExc.fileNotFound m))
          = Except.error (RunErr.uncaught (PyExc.fileNotFound m)))
    ∧ (∀ (cmd : Cmd) (check : Bool) (t : Option Nat) (m : String),
        runStandard cmd check t (DirectOutcome.raised (PyExc.otherExc m))
          = Except.error (RunErr.uncaught (PyExc.otherExc m))) :=
  ⟨fun _ _ _ => rfl, fun _ _ _ => rfl,
   fun _ _ _ _ => rfl, fun _ _ _ _ => rfl⟩

/-- Claim C4 (counterexample): in pseudo-terminal mode the free-text
command `echo a | grep a` is tokenized by `shlex.split` and executed
directly with `shell=False` — the `|` becomes a literal argument to
`echo`, so the pipe is not honored and the string is not interpreted by
the platform shell. -/
theorem C4_counterexample :
    ptyInvocation (Cmd.str "echo a | grep a")
        = Invocation.execArgv ["echo", "a", "|", "grep", "a"]
    ∧ ptyInvocation (Cmd.str "echo a | grep a")
        ≠ Invocation.shellText "echo a | grep a" :=
  ⟨rfl, by decide⟩

/-- Claim C4 (amended): a free-text command is interpreted by the
platform shell only in direct-pipe mode (via `shell=True`, the default);
in pseudo-terminal mode it is split into an argument vector by
`shlex.split` and executed without a shell, so shell constructs such as
pipes and redirections are not honored there. -/
theorem C4_amended :
    (∀ s, directInvocation (Cmd.str s) true = Invocation.shellText s)
    ∧ (∀ s, ptyInvocation (Cmd.str s) = Invocation.execArgv (shlexSplit s))
    ∧ ptyInvocation (Cmd.str "cat f > out")
        = Invocation.execArgv ["cat", "f", ">", "out"] :=
  ⟨fun _ => rfl, fun _ => rfl, rfl⟩

/-- Claim C5 (counterexample): with a 1-second timeout (threshold: 10
polls), a child that produces a data chunk on every poll for 20 polls —
about two seconds of wall-clock at the 0.1 s poll interval, i.e. well
past the timeout — is never terminated: the loop is still running when
the schedule ends, because `timeout_count` advances only on polls that
found no data. -/
theorem C5_counterexample :
    (ptyLoop (some 1) false (List.replicate 20 (PollEvent.data [65]))
        ⟨[], 0, 0⟩).2 = LoopExit.stillRunning
    ∧ (ptyLoop (some 1) false (List.replicate 20 (PollEvent.data [65]))
        ⟨[], 0, 0⟩).2 ≠ LoopExit.timedOutKilled :=
  ⟨by decide, by decide⟩

/-- Claim C5 (amended): the PTY loop's timeout is measured in no-data
polls, not wall-clock time: once the accumulated count of polls that
found no readable data reaches `timeout / 0.1`, the very next iteration
SIGTERMs the process group and returns; a poll that finds data leaves the
counter unchanged (resetting only the idle counter), and only a no-data
poll with the child alive advances it. -/
theorem C5_amended :
    (∀ (t : Nat) (b : Bool) (e : PollEvent) (rest : List PollEvent)
        (st : PtyLoopState), 0 < t → t * 10 ≤ st.timeoutCount →
        ptyLoop (some t) b (e :: rest) st = (st, LoopExit.timedOutKilled))
    ∧ (∀ (t : Nat) (b : Bool) (chunk : List Nat) (rest : List PollEvent)
        (st : PtyLoopState), chunk.isEmpty = false →
        timeoutHit (some t) st.timeoutCount = false →
        ptyLoop (some t) b (PollEvent.data chunk :: rest) st
          = ptyLoop (some t) b rest ⟨st.output ++ chunk, st.timeoutCount, 0⟩)
    ∧ (∀ (t : Nat) (b : Bool) (rest : List PollEvent) (st : PtyLoopState),
        timeoutHit (some t) st.timeoutCount = false → st.idleCount + 1 < 20 →
        ptyLoop (some t) b (PollEvent.noData false :: rest) st
          = ptyLoop (some t) b rest
              ⟨st.output, st.timeoutCount + 1, st.idleCount + 1⟩) := by
  refine ⟨?_, ?_, ?_⟩
  · intro t b e rest st ht htc
    have hhit : timeoutHit (some t) st.timeoutCount = true := by
      simp only [timeoutHit, Bool.and_eq_true, decide_eq_true_eq]
      exact ⟨ht, htc⟩
    rcases e with chunk | _ | exited
    · simp [ptyLoop, hhit]
    · simp [ptyLoop, hhit]
    · rcases exited <;> simp [ptyLoop, hhit]
  · intro t b chunk rest st hchunk hhit
    simp [ptyLoop, hhit, hchunk, maxIdlePolls]
  · intro t b rest st hhit hidle
    have h20 : ¬ (maxIdlePolls ≤ st.idleCount + 1) := by
      simp only [maxIdlePolls]
      omega
    simp [ptyLoop, hhit, h20]

/-- Claim C5 (amended, witness). -/
theorem C5_amended_witness :
    ptyLoop (some 1) false [PollEvent.noData false] ⟨[], 10, 0⟩
        = (⟨[], 10, 0⟩, LoopExit.timedOutKilled)
    ∧ ptyLoop (some 1) false [PollEvent.data [65]] ⟨[], 0, 0⟩
        = ptyLoop (some 1) false [] ⟨[65], 0, 0⟩
    ∧ ptyLoop (some 1) false [PollEvent.noData false] ⟨[], 0, 5⟩
        = ptyLoop (some 1) false [] ⟨[], 1, 6⟩ :=
  ⟨C5_amended.1 1 false (PollEvent.noData false) [] ⟨[], 10, 0⟩
      (by decide) (by decide),
   C5_amended.2.1 1 false [65] [] ⟨[], 0, 0⟩ (by decide) (by decide),
   C5_amended.2.2 1 false [] ⟨[], 0, 5⟩ (by decide) (by decide)⟩

/-- Claim C6 (counterexample): for a `systemctl status` command the loop
is still running after 19 consecutive idle polls — the forced-termination
branch fires only at the 20th idle poll, exactly the same
`max_idle_time / read_timeout = 2 / 0.1 = 20` threshold as the default
idle stop, so the special-case threshold is not strictly shorter. -/
theorem C6_counterexample :
    (ptyLoop none true (List.replicate 19 (PollEvent.noData false))
        ⟨[], 0, 0⟩).2 = LoopExit.stillRunning
    ∧ (ptyLoop none true (List.replicate 20 (PollEvent.noData false))
        ⟨[], 0, 0⟩).2 = LoopExit.idleKilled
    ∧ (ptyLoop none false (List.replicate 20 (PollEvent.noData false))
        ⟨[], 0, 0⟩).2 = LoopExit.idleDone :=
  ⟨by decide, by decide, by decide⟩

/-- Claim C6 (amended): the idle stop and the `systemctl status` special
case use the same threshold of 20 idle polls (2 seconds at the 0.1 s poll
interval); after exactly 20 consecutive polls without data the default
path simply stops reading while the `systemctl status` path additionally
SIGTERMs the process group before stopping — the difference is the forced
termination, not a shorter threshold. -/
theorem C6_amended :
    (∀ rest : List PollEvent,
        ptyLoop none false
            (List.replicate 20 (PollEvent.noData false) ++ rest) ⟨[], 0, 0⟩
          = (⟨[], 20, 20⟩, LoopExit.idleDone))
    ∧ (∀ rest : List PollEvent,
        ptyLoop none true
            (List.replicate 20 (PollEvent.noData false) ++ rest) ⟨[], 0, 0⟩
          = (⟨[], 20, 20⟩, LoopExit.idleKilled))
    ∧ (ptyLoop none true (List.replicate 19 (PollEvent.noData false))
        ⟨[], 0, 0⟩).2 = LoopExit.stillRunning := by
  refine ⟨?_, ?_, by decide⟩
  · intro rest
    rw [show (20 : Nat) = 19 + 1 from rfl, List.replicate_succ',
      List.append_assoc]
    rw [ptyLoop_idle_steps false 19 ([PollEvent.noData false] ++ rest)
      ⟨[], 0, 0⟩ (by decide)]
    simp [ptyLoop, timeoutHit, maxIdlePolls]
  · intro rest
    rw [show (20 : Nat) = 19 + 1 from rfl, List.replicate_succ',
      List.append_assoc]
    rw [ptyLoop_idle_steps true 19 ([PollEvent.noData false] ++ rest)
      ⟨[], 0, 0⟩ (by decide)]
    simp [ptyLoop, timeoutHit, maxIdlePolls]

/-- Claim C7 (confirmed): for a child that writes a sequence of nonempty
ASCII chunks to its standard output and then exits, the PTY read loop
accumulates exactly those bytes and the decoded stdout equals the decoded
direct-pipe capture of the same bytes — both are the byte-for-byte
character image of what the child wrote. -/
theorem C7_roundtrip (chunks : List (List Nat)) (isSys : Bool)
    (hne : ∀ c ∈ chunks, c.isEmpty = false)
    (hascii : ∀ b ∈ chunks.flatten, b < 128) :
    ptyCapture none isSys (chunks.map PollEvent.data ++ [PollEvent.noData true])
        = directCapture chunks.flatten
    ∧ directCapture chunks.flatten = chunks.flatten.map Char.ofNat := by
  constructor
  · show utf8DecodeReplace _ = utf8DecodeReplace _
    rw [ptyLoop_data_run chunks isSys ⟨[], 0, 0⟩ hne]
    simp
  · exact utf8_ascii chunks.flatten hascii

/-- Claim C7 (witness): the child writes the bytes of "hi\n". -/
theorem C7_roundtrip_witness :
    ptyCapture none false
        (([[104, 105, 10]] : List (List Nat)).map PollEvent.data
          ++ [PollEvent.noData true])
      = directCapture ([[104, 105, 10]] : List (List Nat)).flatten
    ∧ directCapture ([[104, 105, 10]] : List (List Nat)).flatten
      = ([[104, 105, 10]] : List (List Nat)).flatten.map Char.ofNat :=
  C7_roundtrip [[104, 105, 10]] false (by decide) (by decide)

/-- Claim C8 (counterexample): an exception raised while allocating the
PTY or spawning the child (lines 73-92, before the `try` block) escapes
`run_command_with_pty` with the caller's working directory still set to
the override — the restore in the `finally` at lines 168-170 never runs,
so the prior directory is not restored on that exceptional path. -/
theorem C8_counterexample :
    (run_command_with_pty_state (some "/tmp")
        (PtyExcSite.excInSetup (PyExc.fileNotFound "spawn failed"))
        ⟨"/home/user"⟩).1 = (⟨"/tmp"⟩ : ProcState)
    ∧ ((⟨"/tmp"⟩ : ProcState) ≠ (⟨"/home/user"⟩ : ProcState)) :=
  ⟨rfl, by decide⟩

/-- Claim C8 (amended): when a working-directory override is supplied,
the prior directory is restored on every path that reaches the read
loop's `try` block — normal completion and exceptions inside the loop
(which are caught and turned into return code -1) alike — but an
exception during PTY allocation or spawn, which happens after `os.chdir`
and before the `try`, propagates with the directory left changed; with no
override the directory is never touched. -/
theorem C8_amended :
    (∀ (d : String) (st : ProcState) (rc : Int),
        run_command_with_pty_state (some d) (PtyExcSite.noExc rc) st
          = (⟨st.cwd⟩, PtyCallOutcome.returned rc))
    ∧ (∀ (d : String) (st : ProcState),
        run_command_with_pty_state (some d) PtyExcSite.excInLoop st
          = (⟨st.cwd⟩, PtyCallOutcome.returned (-1)))
    ∧ (∀ (d : String) (st : ProcState) (e : PyExc),
        run_command_with_pty_state (some d) (PtyExcSite.excInSetup e) st
          = (⟨d⟩, PtyCallOutcome.raised e))
    ∧ (∀ (st : ProcState) (site : PtyExcSite),
        (run_command_with_pty_state none site st).1 = st) := by
  refine ⟨fun d st rc => rfl, fun d st => rfl, fun d st e => rfl,
    fun st site => ?_⟩
  cases site <;> rfl

/-- Claim C9 (confirmed): for a pipeline of at least two commands whose
final stage's `communicate` completes, the result is built solely from
the final stage's exit code and captured streams, `CommandError` is
raised exactly when `check` is set and that exit code is non-zero, the
first stage is spawned with inherited stdin, and every later stage `i` is
spawned with stdin wired from stage `i-1`'s stdout, which the parent
closes immediately afterwards. -/
theorem C9_pipeline (cmds : List Cmd) (check : Bool) (t : Option Nat)
    (pc : Bool) (pty : PtyOutcome) (d : DirectOutcome) (rc : Int)
    (out err : String) (h2 : 2 ≤ cmds.length) :
    (run_piped_commands cmds check t pc pty d
        (PipedOutcome.completed rc out err)
      = (pipelineEvents cmds.length,
         if check = true ∧ rc ≠ 0 then
           Except.error (RunErr.commandError
             ("管道命令执行失败，返回码: " ++ toString rc))
         else Except.ok ⟨cmds.getLastD (Cmd.argv []), rc, out, err⟩))
    ∧ (pipelineEvents cmds.length).head? = some (PipeEvent.spawn 0 none)
    ∧ (∀ i, 1 ≤ i → i ≤ cmds.length - 1 → ∃ l1 l2,
        pipelineEvents cmds.length
          = l1 ++ (PipeEvent.spawn i (some (i - 1)) ::
              PipeEvent.closeStdout (i - 1) :: l2)) := by
  refine ⟨?_, rfl, ?_⟩
  · rcases cmds with _ | ⟨c1, _ | ⟨c2, cs⟩⟩
    · simp at h2
    · simp at h2
    · rfl
  · intro i h1 hi
    by_cases hcase : i ≤ cmds.length - 2
    · have hj : i - 1 < cmds.length - 2 := by omega
      obtain ⟨l1, l2, hl⟩ := middleBlocks_split (cmds.length - 2) (i - 1) hj
      refine ⟨PipeEvent.spawn 0 none :: l1,
        l2 ++ [PipeEvent.spawn (cmds.length - 1) (some (cmds.length - 2)),
          PipeEvent.closeStdout (cmds.length - 2)], ?_⟩
      have hi1 : i - 1 + 1 = i := by omega
      rw [pipelineEvents, hl, hi1]
      simp [List.cons_append, List.append_assoc]
    · have hieq : i = cmds.length - 1 := by omega
      refine ⟨PipeEvent.spawn 0 none :: middleBlocks (cmds.length - 2), [], ?_⟩
      rw [pipelineEvents, hieq, show cmds.length - 1 - 1 = cmds.length - 2 by omega]
      simp [List.cons_append]

/-- Claim C9 (witness): a three-stage pipeline whose final stage exits 0
with output "x". -/
theorem C9_pipeline_witness :
    run_piped_commands [Cmd.str "a", Cmd.str "b", Cmd.str "c"] true none
        false (PtyOutcome.done ⟨0, ""⟩) (DirectOutcome.completed 0 "" "")
        (PipedOutcome.completed 0 "x" "")
      = (pipelineEvents 3, Except.ok ⟨Cmd.str "c", 0, "x", ""⟩) := by
  have h := (C9_pipeline [Cmd.str "a", Cmd.str "b", Cmd.str "c"] true none
    false (PtyOutcome.done ⟨0, ""⟩) (DirectOutcome.completed 0 "" "")
    0 "x" "" (by decide)).1
  simpa using h

/-- Claim C10 (confirmed): `run_piped_commands` on the empty list spawns
nothing and returns a success result with exit code 0 and empty streams
before any pipeline machinery runs, and on a singleton list it is exactly
`run_command` on that command with the forwarded keyword options. -/
theorem C10_degenerate (check : Bool) (t : Option Nat) (pc : Bool)
    (pty : PtyOutcome) (d : DirectOutcome) (piped : PipedOutcome) (c : Cmd) :
    run_piped_commands [] check t pc pty d piped
        = ([], Except.ok ⟨Cmd.argv [], 0, "", ""⟩)
    ∧ run_piped_commands [c] check t pc pty d piped
        = ([], run_command c check t pc pty d) :=
  ⟨rfl, rfl⟩
